import Mathlib

/-!
Shallow embedding of `src/components/PresentationTab.tsx`: the presentation
generation workflow (session gate, request construction, response handling),
the presentation store (deck, cursor, artifact url, fallback flag), the
clamped slide navigation, and the local markdown export.

JavaScript `x || d` coalesces on *falsy* values (absent, empty string, 0,
false), not only on absent ones; the `jsOr*` helpers below reproduce that.
-/

/-- JS `v || d` for an optional string: absent or empty falls back to `d`. -/
def jsOrStr (v : Option String) (d : String) : String :=
  match v with
  | some s => if s = "" then d else s
  | none => d

/-- JS `v || null` for an optional string: absent or empty becomes `null`. -/
def jsOrNull (v : Option String) : Option String :=
  match v with
  | some s => if s = "" then none else some s
  | none => none

/-- JS `s || undefined` for a string: empty becomes `undefined` (omitted). -/
def jsUndefIfEmpty (s : String) : Option String :=
  if s = "" then none else some s

/-- JS `v || d` for an optional number: absent or `0` falls back to `d`. -/
def jsOrInt (v : Option Int) (d : Int) : Int :=
  match v with
  | some n => if n = 0 then d else n
  | none => d

/-- JS `v || false` for an optional boolean (also plain truthiness of `v`). -/
def jsOrFalse (v : Option Bool) : Bool :=
  match v with
  | some b => b
  | none => false

/-- JS `a || b || d` over two optional strings (the catch-branch chain). -/
def jsFirstStr (a b : Option String) (d : String) : String :=
  jsOrStr a (jsOrStr b d)

/-- JS `String.prototype.trim()`: drop leading and trailing whitespace. -/
def jsTrim (s : String) : String :=
  ⟨((s.data.dropWhile Char.isWhitespace).reverse.dropWhile Char.isWhitespace).reverse⟩

/-- Source `interface PresentationSlide`. -/
structure PresentationSlide where
  title : String
  content : List String
deriving Repr, DecidableEq

/-- Source `interface PresentationData` (the Deck). -/
structure PresentationData where
  title : String
  slides : List PresentationSlide
  total_slides : Int
  theme : String
deriving Repr, DecidableEq

/-- Source `interface PresentationRequest`. -/
structure PresentationRequest where
  session_id : String
  topic : Option String
  max_slides : Int
deriving Repr, DecidableEq

/-- Source `interface PresentationResponse`. Fields the code defends
with `||` are modelled as optional, since the runtime payload may omit them
even where the TS type is non-optional. -/
structure PresentationResponse where
  status : String
  message : Option String
  presentation_url : Option String
  slides : Option (List PresentationSlide)
  slide_count : Option Int
  api_used : Option Bool
  fallback_used : Option Bool
  title : Option String
deriving Repr, DecidableEq

/-- The component's form state: `{ topic, slideCount }`. -/
structure FormData where
  topic : String
  slideCount : Int
deriving Repr, DecidableEq

/-- The store portion of the component state: `presentation`, `currentSlide`,
`presentationUrl`, `fallbackUsed`. The cursor is a JS number, hence `Int`. -/
structure TabState where
  presentation : Option PresentationData
  currentSlide : Int
  presentationUrl : Option String
  fallbackUsed : Bool
deriving Repr, DecidableEq

/-- A `toast.error` / `toast.success` call observed during an operation. -/
inductive Notice where
  | toastError (msg : String)
  | toastSuccess (msg : String)
deriving Repr, DecidableEq

/-- Result of the `fetch` + `response.json()` step: a decoded payload, or an
exception carrying `error.response?.data?.detail` and `error.message`. A
malformed payload (json throwing) is the exception case. -/
inductive FetchResult where
  | ok (data : PresentationResponse)
  | err (detail : Option String) (message : Option String)
deriving Repr, DecidableEq

/-- Outcome of one `generatePresentation` invocation: the new store state,
the request that was submitted (none when the call short-circuited), and the
notification emitted. -/
structure GenResult where
  state : TabState
  sentRequest : Option PresentationRequest
  notice : Notice
deriving Repr, DecidableEq

/-- The `requestData` object built by `generatePresentation`:
`session_id: 'default'`, `topic: formData.topic.trim() || undefined`,
`max_slides: formData.slideCount`. -/
def requestData (formData : FormData) : PresentationRequest :=
  { session_id := "default"
    topic := jsUndefIfEmpty (jsTrim formData.topic)
    max_slides := formData.slideCount }

/-- The Deck built in the success branch of `generatePresentation`. -/
def successDeck (data : PresentationResponse) : PresentationData :=
  { title := jsOrStr data.title "Generated Presentation"
    slides := data.slides.getD []
    total_slides := jsOrInt data.slide_count 0
    theme := "professional" }

/-- Source `generatePresentation`: gate on the active session, build
`requestData`, submit, then either populate the store (success), surface the
service message (non-success status), or surface the best diagnostic from the
thrown error (catch). `isGenerating` toggling is omitted: it is set and then
unconditionally reset in `finally`. -/
def generatePresentation (sessionActive : Bool) (formData : FormData)
    (st : TabState) (fetched : FetchResult) : GenResult :=
  if !sessionActive then
    { state := st
      sentRequest := none
      notice := .toastError "Please upload a PDF document first" }
  else
    match fetched with
    | .ok data =>
      if data.status = "success" then
        { state :=
            { presentation := some (successDeck data)
              presentationUrl := jsOrNull data.presentation_url
              fallbackUsed := jsOrFalse data.fallback_used
              currentSlide := 0 }
          sentRequest := some (requestData formData)
          notice :=
            if jsOrFalse data.fallback_used then
              .toastSuccess "Presentation created in basic mode (AI quota exceeded)"
            else
              .toastSuccess "Presentation generated successfully!" }
      else
        { state := st
          sentRequest := some (requestData formData)
          notice := .toastError (jsOrStr data.message "Failed to generate presentation") }
    | .err detail message =>
      { state := st
        sentRequest := some (requestData formData)
        notice := .toastError (jsFirstStr detail message "Failed to generate presentation") }

/-- The Previous button: `setCurrentSlide(Math.max(0, currentSlide - 1))`.
The button is only rendered while a presentation exists. -/
def navPrevious (st : TabState) : TabState :=
  match st.presentation with
  | none => st
  | some _ => { st with currentSlide := max 0 (st.currentSlide - 1) }

/-- The Next button:
`setCurrentSlide(Math.min(presentation.slides.length - 1, currentSlide + 1))`.
The button is only rendered while a presentation exists. -/
def navNext (st : TabState) : TabState :=
  match st.presentation with
  | none => st
  | some p => { st with currentSlide := min ((p.slides.length : Int) - 1) (st.currentSlide + 1) }

/-- The New Presentation button: clears `presentation`, `presentationUrl`,
`fallbackUsed` (the cursor is not touched by this handler). -/
def clearPresentation (st : TabState) : TabState :=
  { st with presentation := none, presentationUrl := none, fallbackUsed := false }

/-- One navigation button press. -/
inductive NavMove where
  | prev
  | next
deriving Repr, DecidableEq

/-- Apply one navigation move. -/
def navStep (st : TabState) (m : NavMove) : TabState :=
  match m with
  | .prev => navPrevious st
  | .next => navNext st

/-- Apply a sequence of navigation moves. -/
def applyMoves (st : TabState) (ms : List NavMove) : TabState :=
  ms.foldl navStep st

/-- One slide's chunk of the exported markdown, from `exportPresentation`:
the template literal mapped over `presentation.slides` with its index. -/
def slideSection (idx : Nat) (slide : PresentationSlide) : String :=
  "## Slide " ++ toString (idx + 1) ++ ": " ++ slide.title ++ "\n\n" ++
    String.intercalate "\n" (slide.content.map (fun item => "• " ++ item)) ++ "\n\n---\n\n"

/-- Source `exportPresentation`, the `content` string:
`# ${title}\n\n` followed by the slide chunks joined with `''`. -/
def exportPresentation (p : PresentationData) : String :=
  "# " ++ p.title ++ "\n\n" ++
    String.join (p.slides.enum.map (fun si => slideSection si.1 si.2))

/-- Concatenate lines, terminating each with a newline. -/
def unlines (l : List String) : String :=
  match l with
  | [] => ""
  | a :: as => a ++ "\n" ++ unlines as

/-- The spec's wording of one exported slide, as a list of lines: the
`## Slide {n}: {title}` heading, a blank line, each content line prefixed
with `• ` on its own line, a blank line, the `---` separator line, and
another blank line. -/
def specSlideLines (n : Nat) (slide : PresentationSlide) : List String :=
  ["## Slide " ++ toString n ++ ": " ++ slide.title, ""] ++
    slide.content.map (fun item => "• " ++ item) ++ ["", "---", ""]

/-- The spec's wording of the whole export: `# {title}`, a blank line, then
each slide's lines in order with 1-based indices. -/
def specMarkdown (p : PresentationData) : String :=
  unlines (["# " ++ p.title, ""] ++
    (p.slides.enum.map (fun si => specSlideLines (si.1 + 1) si.2)).flatten)

/-- One exported slide as the code actually renders it: as `specSlideLines`,
except that a slide whose content list is empty yields one extra blank line
between the heading's blank line and the separator's blank line. -/
def specSlideLinesAmended (n : Nat) (slide : PresentationSlide) : List String :=
  ["## Slide " ++ toString n ++ ": " ++ slide.title, ""] ++
    slide.content.map (fun item => "• " ++ item) ++
    (if slide.content = [] then [""] else []) ++ ["", "---", ""]

/-- The whole export with the empty-content amendment. -/
def specMarkdownAmended (p : PresentationData) : String :=
  unlines (["# " ++ p.title, ""] ++
    (p.slides.enum.map (fun si => specSlideLinesAmended (si.1 + 1) si.2)).flatten)

/-- Folding append over a list distributes over the starting accumulator. -/
theorem foldl_append_shift (l : List String) : ∀ s : String,
    List.foldl (fun r t => r ++ t) s l = s ++ List.foldl (fun r t => r ++ t) "" l := by
  induction l with
  | nil => intro s; simp
  | cons a t ih =>
    intro s
    simp only [List.foldl_cons]
    rw [ih (s ++ a), ih ("" ++ a)]
    simp [String.append_assoc]

/-- Unfolding lemma: `String.join` peels off its head. -/
theorem join_cons (a : String) (l : List String) :
    String.join (a :: l) = a ++ String.join l := by
  simp only [String.join, List.foldl_cons]
  rw [foldl_append_shift]
  simp

/-- Distribution of `String.join` over list append. -/
theorem join_append (l₁ l₂ : List String) :
    String.join (l₁ ++ l₂) = String.join l₁ ++ String.join l₂ := by
  induction l₁ with
  | nil => simp [String.join]
  | cons a t ih => simp only [List.cons_append, join_cons, ih, String.append_assoc]

/-- Distribution of `unlines` over list append. -/
theorem unlines_append (l₁ l₂ : List String) :
    unlines (l₁ ++ l₂) = unlines l₁ ++ unlines l₂ := by
  induction l₁ with
  | nil => simp [unlines]
  | cons a t ih => simp only [List.cons_append, unlines, List.append_eq, ih, String.append_assoc]

/-- Applying `unlines` to a flattened list of line blocks joins the per-block
`unlines`. -/
theorem unlines_flatten (L : List (List String)) :
    unlines L.flatten = String.join (L.map unlines) := by
  induction L with
  | nil => simp [unlines, String.join]
  | cons a t ih => simp only [List.flatten_cons, List.map_cons, unlines_append, ih, join_cons]

/-- The accumulator form of `String.intercalate.go`. -/
theorem intercalate_go_spec (s : String) : ∀ (as : List String) (acc : String),
    String.intercalate.go acc s as = acc ++ String.join (as.map (fun x => s ++ x)) := by
  intro as
  induction as with
  | nil => intro acc; simp [String.intercalate.go, String.join]
  | cons a t ih =>
    intro acc
    simp only [String.intercalate.go, List.map_cons, join_cons, ih, String.append_assoc]

/-- Unfolding lemma: `String.intercalate` peels off its head. -/
theorem intercalate_cons (s a : String) (as : List String) :
    String.intercalate s (a :: as) = a ++ String.join (as.map (fun x => s ++ x)) := by
  simp [String.intercalate, intercalate_go_spec]

/-- On a nonempty list, intercalating newlines and appending a final newline
is the same as newline-terminating every line. -/
theorem intercalate_newline_cons (a : String) (as : List String) :
    String.intercalate "\n" (a :: as) ++ "\n" = unlines (a :: as) := by
  rw [intercalate_cons]
  induction as generalizing a with
  | nil => simp [unlines, String.join]
  | cons b bs ih =>
    calc (a ++ String.join (List.map (fun x => "\n" ++ x) (b :: bs))) ++ "\n"
        = ((a ++ "\n" ++ b) ++ String.join (List.map (fun x => "\n" ++ x) bs)) ++ "\n" := by
          simp [join_cons, String.append_assoc]
      _ = unlines ((a ++ "\n" ++ b) :: bs) := ih (a ++ "\n" ++ b)
      _ = unlines (a :: b :: bs) := by simp [unlines, String.append_assoc]

/-- One exported slide chunk equals the newline-terminated amended line
block. -/
theorem slideSection_unlines (i : Nat) (s : PresentationSlide) :
    slideSection i s = unlines (specSlideLinesAmended (i + 1) s) := by
  have hsep : ("\n\n---\n\n" : String) = "\n" ++ "\n" ++ "---" ++ "\n" ++ "\n" := rfl
  have hnn : ("\n\n" : String) = "\n" ++ "\n" := rfl
  cases hc : s.content with
  | nil =>
    simp only [slideSection, specSlideLinesAmended, hc, List.map_nil]
    rw [hsep, hnn]
    simp [unlines, String.intercalate, String.append_assoc]
  | cons a as =>
    simp only [slideSection, specSlideLinesAmended, hc, List.map_cons,
      List.cons_ne_nil, if_false, List.nil_append, List.append_nil]
    rw [unlines_append, unlines_append,
      ← intercalate_newline_cons ("• " ++ a) (List.map (fun item => "• " ++ item) as)]
    rw [hsep, hnn]
    simp [unlines, String.append_assoc]

/-- C2 (amended): for every Deck, `exportPresentation` produces `# {title}`,
a blank line, then for each slide in order the `## Slide {n}: {slide.title}`
heading, a blank line, each content line prefixed with `• ` on its own line,
a blank line, a literal `---` separator line and another blank line — except
that a slide with an empty content list yields one extra blank line between
the heading's blank line and the separator's blank line. A zero-slide Deck
exports exactly `# {title}\n\n`. -/
theorem export_markdown_format (p : PresentationData) :
    exportPresentation p = specMarkdownAmended p := by
  unfold exportPresentation specMarkdownAmended
  rw [unlines_append, unlines_flatten, List.map_map]
  have hfun : (unlines ∘ fun si : Nat × PresentationSlide => specSlideLinesAmended (si.1 + 1) si.2)
      = fun si : Nat × PresentationSlide => slideSection si.1 si.2 :=
    funext (fun si => (slideSection_unlines si.1 si.2).symm)
  rw [hfun]
  have hhead : unlines ["# " ++ p.title, ""] = "# " ++ p.title ++ "\n\n" := by
    rw [show ("\n\n" : String) = "\n" ++ "\n" from rfl]
    simp [unlines, String.append_assoc]
  rw [hhead]

/-- C2 counterexample: on a Deck whose single slide has an empty content
list, the export does not match the claimed line format (the code emits an
extra blank line). -/
theorem export_markdown_counterexample :
    exportPresentation
        { title := "T", slides := [{ title := "B", content := [] }],
          total_slides := 1, theme := "professional" } ≠
      specMarkdown
        { title := "T", slides := [{ title := "B", content := [] }],
          total_slides := 1, theme := "professional" } := by
  decide

/-- Navigation never changes which Deck is stored. -/
theorem navStep_presentation (st : TabState) (m : NavMove) :
    (navStep st m).presentation = st.presentation := by
  cases m <;> cases h : st.presentation <;> simp [navStep, navPrevious, navNext, h]

/-- One navigation move preserves the cursor bounds on a nonempty Deck. -/
theorem navStep_bounds (p : PresentationData) (st : TabState) (m : NavMove)
    (hp : st.presentation = some p) (h1 : 1 ≤ p.slides.length)
    (h0 : 0 ≤ st.currentSlide)
    (h2 : st.currentSlide ≤ (p.slides.length : Int) - 1) :
    0 ≤ (navStep st m).currentSlide ∧
      (navStep st m).currentSlide ≤ (p.slides.length : Int) - 1 := by
  cases m <;> simp [navStep, navPrevious, navNext, hp] <;> omega

/-- A sequence of navigation moves preserves the Deck and the cursor bounds
on a nonempty Deck. -/
theorem applyMoves_bounds (p : PresentationData) (ms : List NavMove) (st : TabState)
    (hp : st.presentation = some p) (h1 : 1 ≤ p.slides.length)
    (h0 : 0 ≤ st.currentSlide)
    (h2 : st.currentSlide ≤ (p.slides.length : Int) - 1) :
    (applyMoves st ms).presentation = some p ∧
      0 ≤ (applyMoves st ms).currentSlide ∧
      (applyMoves st ms).currentSlide ≤ (p.slides.length : Int) - 1 := by
  induction ms generalizing st with
  | nil => exact ⟨hp, h0, h2⟩
  | cons m rest ih =>
    have hpres : (navStep st m).presentation = some p := by
      rw [navStep_presentation]; exact hp
    have hb := navStep_bounds p st m hp h1 h0 h2
    have hrec := ih (navStep st m) hpres hb.1 hb.2
    simpa [applyMoves, List.foldl_cons] using hrec

/-- A one-slide Deck used to instantiate the navigation theorem. -/
def deckOne : PresentationData :=
  { title := "T", slides := [{ title := "A", content := ["x"] }],
    total_slides := 1, theme := "professional" }

/-- A store state holding `deckOne` at cursor 0. -/
def stOne : TabState :=
  { presentation := some deckOne, currentSlide := 0,
    presentationUrl := none, fallbackUsed := false }

/-- A store state with no Deck. -/
def stBare : TabState :=
  { presentation := none, currentSlide := 0,
    presentationUrl := none, fallbackUsed := false }

/-- C1 (amended): for a stored Deck with at least one slide whose
`total_slides` agrees with its slide list, any sequence of Previous/Next
presses keeps the cursor within `[0, slideCount-1]`; Previous at the first
slide and Next at the last slide are no-ops; and Previous/Next with no Deck
stored leave the state unchanged. (For a Deck with zero slides the claim
fails: Next moves the cursor to -1 — see the counterexample.) -/
theorem nav_cursor_bounds (p : PresentationData) (st stNone : TabState)
    (ms : List NavMove)
    (hp : st.presentation = some p)
    (hcount : p.total_slides = (p.slides.length : Int))
    (h1 : 1 ≤ p.slides.length)
    (h0 : 0 ≤ st.currentSlide)
    (h2 : st.currentSlide ≤ p.total_slides - 1)
    (hn : stNone.presentation = none) :
    (0 ≤ (applyMoves st ms).currentSlide ∧
      (applyMoves st ms).currentSlide ≤ p.total_slides - 1) ∧
    (st.currentSlide = 0 → navPrevious st = st) ∧
    (st.currentSlide = p.total_slides - 1 → navNext st = st) ∧
    navPrevious stNone = stNone ∧ navNext stNone = stNone := by
  rw [hcount] at h2 ⊢
  refine ⟨(applyMoves_bounds p ms st hp h1 h0 h2).2, ?_, ?_, ?_, ?_⟩
  · intro hz
    obtain ⟨pres, c, url, fb⟩ := st
    simp only at hp hz
    subst hp
    simp [navPrevious, hz]
  · intro hl
    obtain ⟨pres, c, url, fb⟩ := st
    simp only at hp hl h0
    subst hp
    simp only [navPrevious, navNext]
    congr 1
    omega
  · obtain ⟨pres, c, url, fb⟩ := stNone
    simp only at hn
    subst hn
    simp [navPrevious]
  · obtain ⟨pres, c, url, fb⟩ := stNone
    simp only at hn
    subst hn
    simp [navNext]

/-- C1 witness: the navigation theorem instantiated on a one-slide Deck and
the move sequence Next, Previous. -/
theorem nav_cursor_bounds_witness :
    (0 ≤ (applyMoves stOne [NavMove.next, NavMove.prev]).currentSlide ∧
      (applyMoves stOne [NavMove.next, NavMove.prev]).currentSlide ≤
        deckOne.total_slides - 1) ∧
    (stOne.currentSlide = 0 → navPrevious stOne = stOne) ∧
    (stOne.currentSlide = deckOne.total_slides - 1 → navNext stOne = stOne) ∧
    navPrevious stBare = stBare ∧ navNext stBare = stBare :=
  nav_cursor_bounds deckOne stOne stBare [NavMove.next, NavMove.prev]
    rfl (by decide) (by decide) (by decide) (by decide) rfl

/-- C1 counterexample: on a Deck with zero slides, Next at cursor 0 moves
the cursor to -1 — outside `[0, slideCount-1]` and not a no-op. -/
theorem nav_cursor_counterexample :
    (navNext
        { presentation := some { title := "T", slides := [], total_slides := 0,
                                 theme := "professional" },
          currentSlide := 0, presentationUrl := none,
          fallbackUsed := false }).currentSlide = -1 ∧
    ¬(0 ≤ (navNext
        { presentation := some { title := "T", slides := [], total_slides := 0,
                                 theme := "professional" },
          currentSlide := 0, presentationUrl := none,
          fallbackUsed := false }).currentSlide) := by
  decide

/-- A generation attempt that fails: a decoded payload whose status is not
`success`, or a thrown transport/parse error. -/
def failedFetch (f : FetchResult) : Prop :=
  match f with
  | .ok data => data.status ≠ "success"
  | .err _ _ => True

/-- C3: a failed generation call (non-success status, network error, or
malformed payload) leaves the presentation store entirely unchanged — the
prior Deck, artifact url, fallback flag and cursor are all preserved. -/
theorem failure_preserves_store (formData : FormData) (st : TabState)
    (fetched : FetchResult) (hfail : failedFetch fetched) :
    (generatePresentation true formData st fetched).state = st := by
  cases fetched with
  | ok data =>
    have hs : data.status ≠ "success" := hfail
    simp [generatePresentation, hs]
  | err detail message => simp [generatePresentation]

/-- C3 witness: an error-status response (`quota exceeded`) leaves a store
already holding a one-slide Deck exactly as it was. -/
theorem failure_preserves_store_witness :
    (generatePresentation true { topic := "", slideCount := 8 } stOne
        (.ok { status := "error", message := some "quota exceeded",
               presentation_url := none, slides := none, slide_count := none,
               api_used := none, fallback_used := none,
               title := none })).state = stOne :=
  failure_preserves_store { topic := "", slideCount := 8 } stOne
    (.ok { status := "error", message := some "quota exceeded",
           presentation_url := none, slides := none, slide_count := none,
           api_used := none, fallback_used := none, title := none })
    (by simp [failedFetch])

/-- C5: for every `maxSlides` in `[3,15]` and every topic string, the
submitted request carries `max_slides` equal to the input, omits `topic`
when the trimmed topic is empty, and sends the trimmed topic otherwise. -/
theorem request_fields (formData : FormData) (st : TabState)
    (fetched : FetchResult)
    (h3 : 3 ≤ formData.slideCount) (h15 : formData.slideCount ≤ 15) :
    (generatePresentation true formData st fetched).sentRequest =
      some (requestData formData) ∧
    (requestData formData).max_slides = formData.slideCount ∧
    (jsTrim formData.topic = "" → (requestData formData).topic = none) ∧
    (jsTrim formData.topic ≠ "" →
      (requestData formData).topic = some (jsTrim formData.topic)) := by
  refine ⟨?_, rfl, ?_, ?_⟩
  · cases fetched with
    | ok data =>
      by_cases h : data.status = "success" <;> simp [generatePresentation, h]
    | err detail message => simp [generatePresentation]
  · intro h; simp [requestData, jsUndefIfEmpty, h]
  · intro h; simp [requestData, jsUndefIfEmpty, h]

/-- C5 witness: the request for topic `"  "` and 8 slides is sent with
`max_slides = 8` and no topic key. -/
theorem request_fields_witness :
    (generatePresentation true { topic := "  ", slideCount := 8 } stBare
        (.err none none)).sentRequest =
      some (requestData { topic := "  ", slideCount := 8 }) ∧
    (requestData { topic := "  ", slideCount := 8 }).max_slides = 8 ∧
    (jsTrim "  " = "" → (requestData { topic := "  ", slideCount := 8 }).topic = none) ∧
    (jsTrim "  " ≠ "" →
      (requestData { topic := "  ", slideCount := 8 }).topic = some (jsTrim "  ")) :=
  request_fields { topic := "  ", slideCount := 8 } stBare (.err none none)
    (by decide) (by decide)

/-- C9: with no active document session, a generation attempt
short-circuits: the state is unchanged, no request is issued, and the
document-required notice is surfaced. -/
theorem session_gate (formData : FormData) (st : TabState)
    (fetched : FetchResult) :
    (generatePresentation false formData st fetched).state = st ∧
    (generatePresentation false formData st fetched).sentRequest = none ∧
    (generatePresentation false formData st fetched).notice =
      .toastError "Please upload a PDF document first" := by
  simp [generatePresentation]

/-- C10: the submitted request always carries the constant session id
`"default"`, whatever the form input, store state, or response. -/
theorem session_id_constant (formData : FormData) (st : TabState)
    (fetched : FetchResult) :
    (requestData formData).session_id = "default" ∧
    (generatePresentation true formData st fetched).sentRequest =
      some (requestData formData) := by
  refine ⟨rfl, ?_⟩
  cases fetched with
  | ok data =>
    by_cases h : data.status = "success" <;> simp [generatePresentation, h]
  | err detail message => simp [generatePresentation]

/-- C6: a generation call fails exactly when the decoded status is not
`"success"` or the call throws; the failure message is the service
diagnostic verbatim when one is supplied, and the generic
`Failed to generate presentation` message when none is present. -/
theorem failure_classification (formData : FormData) (st : TabState)
    (r : PresentationResponse) (detail msgOfErr : Option String) (msg : String)
    (hmsg : msg ≠ "") :
    ((generatePresentation true formData st (.ok r)).notice =
        .toastError (jsOrStr r.message "Failed to generate presentation") ↔
      r.status ≠ "success") ∧
    (r.message = some msg →
      jsOrStr r.message "Failed to generate presentation" = msg) ∧
    (r.message = none →
      jsOrStr r.message "Failed to generate presentation" =
        "Failed to generate presentation") ∧
    ((generatePresentation true formData st (.err detail msgOfErr)).notice =
      .toastError (jsFirstStr detail msgOfErr "Failed to generate presentation")) := by
  refine ⟨⟨?_, ?_⟩, ?_, ?_, ?_⟩
  · intro hnot hs
    by_cases hf : jsOrFalse r.fallback_used <;>
      simp [generatePresentation, hs, hf] at hnot
  · intro hs
    simp [generatePresentation, hs]
  · intro he; simp [jsOrStr, he, hmsg]
  · intro he; simp [jsOrStr, he]
  · simp [generatePresentation]

/-- C6 witness: an error-status response carrying `quota exceeded` fails and
surfaces that message verbatim; a thrown error with no diagnostics surfaces
the generic message. -/
theorem failure_classification_witness :
    ((generatePresentation true { topic := "", slideCount := 8 } stBare
        (.ok { status := "error", message := some "quota exceeded",
               presentation_url := none, slides := none, slide_count := none,
               api_used := none, fallback_used := none, title := none })).notice =
        .toastError (jsOrStr (some "quota exceeded")
          "Failed to generate presentation") ↔
      ("error" : String) ≠ "success") ∧
    ((some "quota exceeded" : Option String) = some "quota exceeded" →
      jsOrStr (some "quota exceeded") "Failed to generate presentation" =
        "quota exceeded") ∧
    ((some "quota exceeded" : Option String) = none →
      jsOrStr (some "quota exceeded") "Failed to generate presentation" =
        "Failed to generate presentation") ∧
    ((generatePresentation true { topic := "", slideCount := 8 } stBare
        (.err none none)).notice =
      .toastError (jsFirstStr none none "Failed to generate presentation")) :=
  failure_classification { topic := "", slideCount := 8 } stBare
    { status := "error", message := some "quota exceeded",
      presentation_url := none, slides := none, slide_count := none,
      api_used := none, fallback_used := none, title := none }
    none none "quota exceeded" (by decide)

/-- C8: a successful response always replaces the stored Deck and resets the
navigation cursor to 0, regardless of the prior cursor value. -/
theorem replace_resets_cursor (formData : FormData) (st : TabState)
    (r : PresentationResponse) (hs : r.status = "success") :
    (generatePresentation true formData st (.ok r)).state.presentation =
      some (successDeck r) ∧
    (generatePresentation true formData st (.ok r)).state.currentSlide = 0 := by
  simp [generatePresentation, hs]

/-- A two-slide prior Deck whose cursor will sit on its last slide. -/
def deckOld : PresentationData :=
  { title := "Old"
    slides := [{ title := "A", content := [] }, { title := "B", content := [] }]
    total_slides := 2
    theme := "professional" }

/-- A store holding `deckOld` with the cursor on the last slide. -/
def stLastOld : TabState :=
  { presentation := some deckOld
    currentSlide := 1
    presentationUrl := none
    fallbackUsed := false }

/-- A success response carrying a one-slide deck. -/
def respNew : PresentationResponse :=
  { status := "success"
    message := none
    presentation_url := none
    slides := some [{ title := "N", content := ["z"] }]
    slide_count := some 1
    api_used := none
    fallback_used := some false
    title := some "New" }

/-- C8 witness: a success response resets the cursor to 0 from a store whose
cursor sat at the last slide of a differently-sized prior Deck. -/
theorem replace_resets_cursor_witness :
    (generatePresentation true { topic := "", slideCount := 8 } stLastOld
        (.ok respNew)).state.presentation = some (successDeck respNew) ∧
    (generatePresentation true { topic := "", slideCount := 8 } stLastOld
        (.ok respNew)).state.currentSlide = 0 :=
  replace_resets_cursor { topic := "", slideCount := 8 } stLastOld respNew rfl

/-- The spec's Deck invariant on the store: a stored Deck's `total_slides`
equals the length of its slide list. -/
def storeInv (st : TabState) : Prop :=
  match st.presentation with
  | none => True
  | some p => p.total_slides = (p.slides.length : Int)

/-- A fetch outcome whose payload, if any, reports a slide count equal to
its slide list's length (after the code's falsy defaulting). -/
def consistentFetch (f : FetchResult) : Prop :=
  match f with
  | .ok data => jsOrInt data.slide_count 0 = ((data.slides.getD []).length : Int)
  | .err _ _ => True

/-- C4 (amended): the store's Deck invariant `slideCount == length(slides)`
is preserved by generation, navigation and clearing, **provided** each
success response itself reports a slide count equal to its slide list's
length; the code copies both fields from the response without
cross-validation, so an inconsistent response is stored as-is (see the
counterexample). -/
theorem store_deck_invariant (active : Bool) (formData : FormData)
    (st : TabState) (fetched : FetchResult) (m : NavMove)
    (hst : storeInv st) (hc : consistentFetch fetched) :
    storeInv (generatePresentation active formData st fetched).state ∧
    storeInv (navStep st m) ∧ storeInv (clearPresentation st) := by
  refine ⟨?_, ?_, ?_⟩
  · cases active with
    | false => simpa [generatePresentation] using hst
    | true =>
      cases fetched with
      | ok data =>
        by_cases h : data.status = "success"
        · have hcd : jsOrInt data.slide_count 0 = ((data.slides.getD []).length : Int) := hc
          simp [generatePresentation, h, storeInv, successDeck, hcd]
        · simpa [generatePresentation, h] using hst
      | err detail message => simpa [generatePresentation] using hst
  · unfold storeInv
    rw [navStep_presentation]
    exact hst
  · simp [storeInv, clearPresentation]

/-- C4 witness: the invariant-preservation theorem instantiated on a store
holding a consistent one-slide Deck and a consistent success response. -/
theorem store_deck_invariant_witness :
    storeInv (generatePresentation true { topic := "", slideCount := 8 } stOne
      (.ok respNew)).state ∧
    storeInv (navStep stOne NavMove.next) ∧ storeInv (clearPresentation stOne) :=
  store_deck_invariant true { topic := "", slideCount := 8 } stOne
    (.ok respNew) NavMove.next (by simp [storeInv, stOne, deckOne])
    (by simp [consistentFetch, respNew, jsOrInt])

/-- C4 counterexample: a success response reporting `slide_count = 2` with a
single slide is stored as-is, so the stored Deck violates
`slideCount == length(slides)`. -/
theorem store_deck_invariant_counterexample :
    ¬ storeInv (generatePresentation true { topic := "", slideCount := 8 }
      stBare
      (.ok { status := "success", message := none, presentation_url := none,
             slides := some [{ title := "A", content := [] }],
             slide_count := some 2, api_used := none, fallback_used := none,
             title := none })).state := by
  simp [storeInv, generatePresentation, successDeck, jsOrInt]

/-- C7 (amended): on a success response the stored Deck uses the response
title when it is present and non-empty, and the literal default
`Generated Presentation` when it is absent **or empty** (JS falsy
coalescing — see the counterexample for the empty-title case); the response
slide list or `[]` when absent; the response slide count or `0` when absent;
and the fixed theme `professional`. The artifact url is passed through when
present and non-empty and omitted when absent, and the degraded-mode flag is
passed through (`false` when absent). -/
theorem success_deck_fields (formData : FormData) (st : TabState)
    (r : PresentationResponse) (t u : String) (l : List PresentationSlide)
    (n : Int) (b : Bool)
    (hs : r.status = "success") (ht : t ≠ "") (hu : u ≠ "") :
    (generatePresentation true formData st (.ok r)).state.presentation =
      some (successDeck r) ∧
    (r.title = some t → (successDeck r).title = t) ∧
    (r.title = none → (successDeck r).title = "Generated Presentation") ∧
    (r.title = some "" → (successDeck r).title = "Generated Presentation") ∧
    (r.slides = some l → (successDeck r).slides = l) ∧
    (r.slides = none → (successDeck r).slides = []) ∧
    (r.slide_count = some n → (successDeck r).total_slides = n) ∧
    (r.slide_count = none → (successDeck r).total_slides = 0) ∧
    (successDeck r).theme = "professional" ∧
    (r.presentation_url = some u →
      (generatePresentation true formData st (.ok r)).state.presentationUrl = some u) ∧
    (r.presentation_url = none →
      (generatePresentation true formData st (.ok r)).state.presentationUrl = none) ∧
    (r.fallback_used = some b →
      (generatePresentation true formData st (.ok r)).state.fallbackUsed = b) ∧
    (r.fallback_used = none →
      (generatePresentation true formData st (.ok r)).state.fallbackUsed = false) := by
  refine ⟨?_, ?_, ?_, ?_, ?_, ?_, ?_, ?_, rfl, ?_, ?_, ?_, ?_⟩
  · simp [generatePresentation, hs]
  · intro h; simp [successDeck, jsOrStr, h, ht]
  · intro h; simp [successDeck, jsOrStr, h]
  · intro h; simp [successDeck, jsOrStr, h]
  · intro h; simp [successDeck, h]
  · intro h; simp [successDeck, h]
  · intro h
    simp only [successDeck, jsOrInt, h]
    split <;> omega
  · intro h; simp [successDeck, jsOrInt, h]
  · intro h; simp [generatePresentation, hs, jsOrNull, h, hu]
  · intro h; simp [generatePresentation, hs, jsOrNull, h]
  · intro h; simp [generatePresentation, hs, jsOrFalse, h]
  · intro h; simp [generatePresentation, hs, jsOrFalse, h]

/-- C7 witness: the field-mapping theorem instantiated on `respNew` (title
`New`, one slide, count 1, url absent, fallback flag `false`). -/
theorem success_deck_fields_witness :
    (generatePresentation true { topic := "", slideCount := 8 } stBare
      (.ok respNew)).state.presentation = some (successDeck respNew) ∧
    (respNew.title = some "New" → (successDeck respNew).title = "New") ∧
    (respNew.title = none →
      (successDeck respNew).title = "Generated Presentation") ∧
    (respNew.title = some "" →
      (successDeck respNew).title = "Generated Presentation") ∧
    (respNew.slides = some [{ title := "N", content := ["z"] }] →
      (successDeck respNew).slides = [{ title := "N", content := ["z"] }]) ∧
    (respNew.slides = none → (successDeck respNew).slides = []) ∧
    (respNew.slide_count = some 1 → (successDeck respNew).total_slides = 1) ∧
    (respNew.slide_count = none → (successDeck respNew).total_slides = 0) ∧
    (successDeck respNew).theme = "professional" ∧
    (respNew.presentation_url = some "https://x/p.pptx" →
      (generatePresentation true { topic := "", slideCount := 8 } stBare
        (.ok respNew)).state.presentationUrl = some "https://x/p.pptx") ∧
    (respNew.presentation_url = none →
      (generatePresentation true { topic := "", slideCount := 8 } stBare
        (.ok respNew)).state.presentationUrl = none) ∧
    (respNew.fallback_used = some false →
      (generatePresentation true { topic := "", slideCount := 8 } stBare
        (.ok respNew)).state.fallbackUsed = false) ∧
    (respNew.fallback_used = none →
      (generatePresentation true { topic := "", slideCount := 8 } stBare
        (.ok respNew)).state.fallbackUsed = false) :=
  success_deck_fields { topic := "", slideCount := 8 } stBare respNew
    "New" "https://x/p.pptx" [{ title := "N", content := ["z"] }] 1 false
    rfl (by decide) (by decide)

/-- A success response whose title key is present but holds the empty
string. -/
def respEmptyTitle : PresentationResponse :=
  { status := "success"
    message := none
    presentation_url := none
    slides := none
    slide_count := none
    api_used := none
    fallback_used := none
    title := some "" }

/-- C7 counterexample: a success response whose title is present but empty
is stored with the default title, not with the supplied (empty) title. -/
theorem success_deck_title_counterexample :
    respEmptyTitle.title = some "" ∧
    (successDeck respEmptyTitle).title = "Generated Presentation" ∧
    ("Generated Presentation" : String) ≠ "" := by
  refine ⟨rfl, rfl, by decide⟩
